import Mathlib

/-!
Verification of the jsonstore python client (`src/jsonstore/client.py`)
against its natural-language specification.

Shallow embedding notes:
* JSON values are modelled by the inductive `Json`; numbers are modelled by
  `Int` (no claim depends on float-specific behaviour).
* An HTTP response is modelled post-parse: `Response.body : Option Json` is
  the outcome of `response.json()`, `none` meaning the body is not valid
  JSON (a `ValueError` is raised by the parse).
* The outcome of a `requests.<verb>` call is a `NetOutcome`: either the
  transport raised a `RequestException` or a `Response` came back.
* `requests.Response.raise_for_status` raises `HTTPError` (a subclass of
  `RequestException`) exactly for status codes in [400, 600).
* Python dictionary membership (`'ok' in resp`), subscripting
  (`resp['ok']`), and truthiness (`not resp['ok']`) are modelled including
  their behaviour on non-dict values returned by `response.json()`
  (`in` on a list/str, `TypeError` on other types, etc.).
* Each client method returns its result together with the list of HTTP
  requests it issued, so that claims about headers, URLs, timeouts and
  "no request is issued" can be stated.
-/

namespace Jsonstore

/-- JSON values as handled by Python's `json` module. -/
inductive Json where
  | null
  | bool (b : Bool)
  | num (n : Int)
  | str (s : String)
  | arr (elems : List Json)
  | obj (fields : List (String × Json))

/-- Python truthiness of a deserialized JSON value (`not resp['ok']`). -/
def Json.truthy : Json → Bool
  | .null => false
  | .bool b => b
  | .num n => n != 0
  | .str s => !(s == "")
  | .arr es => !es.isEmpty
  | .obj fs => !fs.isEmpty

/-- Exceptions that can arise in the client code.  `jsonstoreError` models
the library's own `JsonstoreError`; the others model the built-in /
`requests` exceptions that occur in `client.py` (`HTTPError` raised by
`raise_for_status` is a subclass of `RequestException` and is modelled by
the `requestException` constructor). -/
inductive PyErr where
  | requestException (msg : String)
  | valueError (msg : String)
  | keyError (msg : String)
  | typeError (msg : String)
  | jsonstoreError (msg : String)

/-- Substring test, used to model Python `k in s` on strings. -/
def isSubstring (needle hay : List Char) : Bool :=
  (List.range (hay.length + 1)).any (fun i => needle.isPrefixOf (hay.drop i))

/-- Python membership test `k in resp` on a deserialized JSON value:
key membership for dicts, element membership for lists, substring test for
strings, `TypeError` for the remaining types. -/
def Json.containsKey : Json → String → Except PyErr Bool
  | .obj fs, k => .ok (fs.any (fun p => p.1 == k))
  | .arr es, k => .ok (es.any (fun e => match e with | .str s => s == k | _ => false))
  | .str s, k => .ok (isSubstring k.data s.data)
  | _, _ => .error (.typeError "argument of non-iterable type")

/-- Python subscript `resp[k]` with a string key on a deserialized JSON
value: dict lookup (raising `KeyError` when absent), `TypeError` for
lists/strings (string indices must be integers) and for the remaining
types. -/
def Json.getItem : Json → String → Except PyErr Json
  | .obj fs, k =>
    match fs.find? (fun p => p.1 == k) with
    | some p => .ok p.2
    | none => .error (.keyError k)
  | _, _ => .error (.typeError "indices must be integers")

/-- An HTTP response, body modelled post-parse (`none`: not valid JSON). -/
structure Response where
  status : Nat
  body : Option Json

/-- Whether `requests.Response.raise_for_status` raises: it raises
`HTTPError` exactly for 4xx and 5xx status codes. -/
def Response.raisesForStatus (r : Response) : Bool :=
  decide (400 ≤ r.status) && decide (r.status < 600)

/-- Embedding of `Client.__check_response`: `raise_for_status`, then
deserialize the body, then require a truthy `ok` entry, returning the
deserialized body.  (The `isinstance` guard of the source is vacuous here
since the argument is a `Response` by type.) -/
def check_response (response : Response) : Except PyErr Json :=
  if response.raisesForStatus then
    .error (.requestException ("http error " ++ toString response.status))
  else
    match response.body with
    | none => .error (.valueError "Expecting value")
    | some resp =>
      match resp.containsKey "ok" with
      | .error e => .error e
      | .ok mem =>
        if !mem then
          .error (.jsonstoreError "Call to jsonstore failed")
        else
          match resp.getItem "ok" with
          | .error e => .error e
          | .ok okv =>
            if !okv.truthy then
              .error (.jsonstoreError "Call to jsonstore failed")
            else
              .ok resp

/-- The `except (RequestException, ValueError, KeyError) as e: raise
JsonstoreError(str(e))` wrapper of every client method: those three
exception classes are converted to `JsonstoreError`; any other exception
(in particular `TypeError` and `JsonstoreError` itself) propagates
unchanged. -/
def normalize_error : PyErr → PyErr
  | .requestException m => .jsonstoreError m
  | .valueError m => .jsonstoreError m
  | .keyError m => .jsonstoreError m
  | e => e

/-- The client object: `__base_url` and `__headers`, set in `__init__` and
never reassigned (all methods of the embedding are pure functions of the
client). -/
structure Client where
  base_url : String
  headers : List (String × String)

/-- Embedding of `Client.__init__`. -/
def Client.init (token : String) : Client :=
  { base_url := "https://www.jsonstore.io/" ++ token
    headers := [("Accept", "application/json"), ("Content-type", "application/json")] }

/-- Embedding of `Client.__create_url`. -/
def Client.create_url (c : Client) (key : String) : String :=
  c.base_url ++ "/" ++ key

inductive Method where
  | get | post | put | delete

/-- An outbound HTTP request as handed to the `requests` library:
`data` is the serialized body passed via `data=`, `timeout` is the value
passed via `timeout=` (`none` when the keyword is not passed at all). -/
structure Request where
  method : Method
  url : String
  headers : List (String × String)
  data : Option String
  timeout : Option Nat

/-- Outcome of one `requests.<verb>(...)` call: either the transport raised
a `RequestException`, or a response object came back. -/
inductive NetOutcome where
  | exn (msg : String)
  | resp (r : Response)

/-- The HTTP transport, mapping each issued request to its outcome. -/
abbrev NetCaller := Request → NetOutcome

def DEFAULT_TIMEOUT_SECONDS : Nat := 5

set_option linter.unusedVariables false in
/-- Embedding of `Client.get`.  Returns the result together with the list
of HTTP requests issued.  Note the source does not pass `timeout` to
`requests.get`, hence `timeout := none` in the request and the (faithful)
unused parameter. -/
def Client.get (c : Client) (key : String) (net : NetCaller)
    (timeout : Nat := DEFAULT_TIMEOUT_SECONDS) : Except PyErr Json × List Request :=
  let url := c.create_url key
  let req : Request :=
    { method := .get, url := url, headers := c.headers, data := none, timeout := none }
  let result : Except PyErr Json :=
    match net req with
    | .exn m => .error (normalize_error (.requestException m))
    | .resp r =>
      match check_response r with
      | .error e => .error (normalize_error e)
      | .ok json_resp =>
        match json_resp.getItem "result" with
        | .error e => .error (normalize_error e)
        | .ok v => .ok v
  (result, [req])

/-- Data handed to `post`/`put`: either a JSON-serializable value or a
value `json.dumps` rejects with `TypeError`. -/
inductive PyObj where
  | jsonData (j : Json)
  | unserializable (reason : String)

def escapeChar (ch : Char) : String :=
  if ch = '"' then "\\\"" else if ch = '\\' then "\\\\" else ch.toString

def escapeString (s : String) : String :=
  String.join (s.data.map escapeChar)

mutual
/-- Serialization of a JSON value, modelling `json.dumps` (default
separators). -/
def dumpsJson : Json → String
  | .null => "null"
  | .bool true => "true"
  | .bool false => "false"
  | .num n => toString n
  | .str s => "\"" ++ escapeString s ++ "\""
  | .arr es => "[" ++ dumpsElems es ++ "]"
  | .obj fs => "\x7b" ++ dumpsFields fs ++ "\x7d"

def dumpsElems : List Json → String
  | [] => ""
  | [e] => dumpsJson e
  | e :: rest => dumpsJson e ++ ", " ++ dumpsElems rest

def dumpsFields : List (String × Json) → String
  | [] => ""
  | [(k, v)] => "\"" ++ escapeString k ++ "\": " ++ dumpsJson v
  | (k, v) :: rest => "\"" ++ escapeString k ++ "\": " ++ dumpsJson v ++ ", " ++ dumpsFields rest
end

/-- Embedding of `json.dumps` on the data argument of `post`/`put`. -/
def json_dumps : PyObj → Except PyErr String
  | .jsonData j => .ok (dumpsJson j)
  | .unserializable r => .error (.typeError ("Object of type " ++ r ++ " is not JSON serializable"))

/-- Embedding of `Client.post`.  `json.dumps` runs before (and outside)
the `try` block: on serialization failure the `TypeError` propagates and
no request is issued. -/
def Client.post (c : Client) (key : String) (data : PyObj) (net : NetCaller)
    (timeout : Nat := DEFAULT_TIMEOUT_SECONDS) : Except PyErr Unit × List Request :=
  let url := c.create_url key
  match json_dumps data with
  | .error e => (.error e, [])
  | .ok json_data =>
    let req : Request :=
      { method := .post, url := url, headers := c.headers,
        data := some json_data, timeout := some timeout }
    let result : Except PyErr Unit :=
      match net req with
      | .exn m => .error (normalize_error (.requestException m))
      | .resp r =>
        match check_response r with
        | .error e => .error (normalize_error e)
        | .ok _ => .ok ()
    (result, [req])

/-- Embedding of `Client.put` (same shape as `post`). -/
def Client.put (c : Client) (key : String) (data : PyObj) (net : NetCaller)
    (timeout : Nat := DEFAULT_TIMEOUT_SECONDS) : Except PyErr Unit × List Request :=
  let url := c.create_url key
  match json_dumps data with
  | .error e => (.error e, [])
  | .ok json_data =>
    let req : Request :=
      { method := .put, url := url, headers := c.headers,
        data := some json_data, timeout := some timeout }
    let result : Except PyErr Unit :=
      match net req with
      | .exn m => .error (normalize_error (.requestException m))
      | .resp r =>
        match check_response r with
        | .error e => .error (normalize_error e)
        | .ok _ => .ok ()
    (result, [req])

/-- Embedding of `Client.delete`.  Unlike `get`, the source does pass
`timeout` to `requests.delete`. -/
def Client.delete (c : Client) (key : String) (net : NetCaller)
    (timeout : Nat := DEFAULT_TIMEOUT_SECONDS) : Except PyErr Unit × List Request :=
  let url := c.create_url key
  let req : Request :=
    { method := .delete, url := url, headers := c.headers, data := none, timeout := some timeout }
  let result : Except PyErr Unit :=
    match net req with
    | .exn m => .error (normalize_error (.requestException m))
    | .resp r =>
      match check_response r with
      | .error e => .error (normalize_error e)
      | .ok _ => .ok ()
  (result, [req])

/-! Helper predicates used to state the claims. -/

/-- Whether an exception is the library's `JsonstoreError` (the spec's
`StoreError`). -/
def isStoreErrE : PyErr → Bool
  | .jsonstoreError _ => true
  | _ => false

/-- Whether an operation outcome is a raised `JsonstoreError`. -/
def isStoreErr {α : Type} : Except PyErr α → Bool
  | .error e => isStoreErrE e
  | .ok _ => false

/-- The body (as parsed) is a JSON object whose `ok` entry is absent or
falsy, i.e. the condition under which `__check_response` raises
`JsonstoreError` on a dict body. -/
def okFieldBad : Json → Bool
  | .obj fs =>
    match fs.find? (fun p => p.1 == "ok") with
    | none => true
    | some p => !p.2.truthy
  | _ => false

/-- The body is a JSON object with no `result` entry. -/
def resultMissing : Json → Bool
  | .obj fs => (fs.find? (fun p => p.1 == "result")).isNone
  | _ => false

/-- The response body, when present and valid JSON, is a JSON object
(Python dict). -/
def dictBody : Option Json → Bool
  | none => true
  | some (.obj _) => true
  | some _ => false

/-- The network outcome either raised, or carries a body that is invalid
JSON or a JSON object. -/
def NetOutcome.dictBodied : NetOutcome → Bool
  | .exn _ => true
  | .resp r => dictBody r.body

/-- Failure condition of `get` (and of the shared response check):
transport exception, 4xx/5xx status, invalid JSON body, absent/falsy `ok`
entry, or missing `result` entry. -/
def get_failure_cond : NetOutcome → Bool
  | .exn _ => true
  | .resp r =>
    r.raisesForStatus ||
      (match r.body with
       | none => true
       | some b => okFieldBad b || resultMissing b)

/-- The `result` entry of the response envelope, when the outcome is a
response whose body is a JSON object containing one. -/
def envelope_result : NetOutcome → Option Json
  | .exn _ => none
  | .resp r =>
    match r.body with
    | some (.obj fs) => (fs.find? (fun p => p.1 == "result")).map (fun p => p.2)
    | _ => none

/-- The response check fails with an exception that the `except` clause
turns into (or that already is) a `JsonstoreError`. -/
def CheckFailsNorm (r : Response) : Prop :=
  ∃ e, check_response r = .error e ∧ isStoreErrE (normalize_error e) = true

lemma any_eq_find?_isSome (fs : List (String × Json)) (p : String × Json → Bool) :
    fs.any p = (fs.find? p).isSome := by
  induction fs with
  | nil => rfl
  | cons a t ih =>
    by_cases h : p a = true
    · simp [List.any_cons, h, List.find?_cons_of_pos _ h]
    · simp [List.any_cons, h, List.find?_cons_of_neg _ h, ih]

lemma check_fails_of_raises (r : Response) (h : r.raisesForStatus = true) :
    CheckFailsNorm r :=
  ⟨.requestException ("http error " ++ toString r.status), by simp [check_response, h], rfl⟩

lemma check_fails_of_body_none (r : Response) (h : r.body = none) :
    CheckFailsNorm r := by
  by_cases hs : r.raisesForStatus = true
  · exact check_fails_of_raises r hs
  · simp only [Bool.not_eq_true] at hs
    exact ⟨.valueError "Expecting value", by simp [check_response, h, hs], rfl⟩

lemma check_fails_of_okbad (r : Response) (fs : List (String × Json))
    (hb : r.body = some (.obj fs)) (h : okFieldBad (.obj fs) = true) :
    CheckFailsNorm r := by
  by_cases hs : r.raisesForStatus = true
  · exact check_fails_of_raises r hs
  · simp only [Bool.not_eq_true] at hs
    refine ⟨.jsonstoreError "Call to jsonstore failed", ?_, rfl⟩
    cases hfind : fs.find? (fun p => p.1 == "ok") with
    | none =>
      have hany : fs.any (fun p => p.1 == "ok") = false := by
        rw [any_eq_find?_isSome, hfind]; rfl
      simp [check_response, hb, hs, Json.containsKey, hany]
    | some pr =>
      have hany : fs.any (fun p => p.1 == "ok") = true := by
        rw [any_eq_find?_isSome, hfind]; rfl
      have htr : pr.2.truthy = false := by
        simpa [okFieldBad, hfind] using h
      simp [check_response, hb, hs, Json.containsKey, hany, Json.getItem, hfind, htr]

lemma check_ok_of_truthy (r : Response) (fs : List (String × Json))
    (hb : r.body = some (.obj fs)) (hs : r.raisesForStatus = false)
    (pr : String × Json) (hfind : fs.find? (fun p => p.1 == "ok") = some pr)
    (htr : pr.2.truthy = true) :
    check_response r = .ok (.obj fs) := by
  have hany : fs.any (fun p => p.1 == "ok") = true := by
    rw [any_eq_find?_isSome, hfind]; rfl
  simp [check_response, hb, hs, Json.containsKey, hany, Json.getItem, hfind, htr]

lemma isStoreErr_get_of_check (c : Client) (k : String) (t : Nat) (r : Response)
    (h : CheckFailsNorm r) :
    isStoreErr (c.get k (fun _ => .resp r) t).1 = true := by
  obtain ⟨e, he, hne⟩ := h
  simp [Client.get, he, isStoreErr, hne]

lemma isStoreErr_post_of_check (c : Client) (k : String) (t : Nat) (j : Json) (r : Response)
    (h : CheckFailsNorm r) :
    isStoreErr (c.post k (.jsonData j) (fun _ => .resp r) t).1 = true := by
  obtain ⟨e, he, hne⟩ := h
  simp [Client.post, json_dumps, he, isStoreErr, hne]

lemma isStoreErr_put_of_check (c : Client) (k : String) (t : Nat) (j : Json) (r : Response)
    (h : CheckFailsNorm r) :
    isStoreErr (c.put k (.jsonData j) (fun _ => .resp r) t).1 = true := by
  obtain ⟨e, he, hne⟩ := h
  simp [Client.put, json_dumps, he, isStoreErr, hne]

lemma isStoreErr_delete_of_check (c : Client) (k : String) (t : Nat) (r : Response)
    (h : CheckFailsNorm r) :
    isStoreErr (c.delete k (fun _ => .resp r) t).1 = true := by
  obtain ⟨e, he, hne⟩ := h
  simp [Client.delete, he, isStoreErr, hne]

/-! Claim theorems. -/

/-- Claim C1, counterexample: a response with HTTP status 404 and the
valid JSON object body with a true `ok` entry and a present `result` entry
makes `get` fail with `JsonstoreError`, although the network call returned
a response and none of the four failure conditions listed by the claim
(transport failure, invalid JSON, `ok` absent/false, `result` missing)
holds. -/
theorem get_fails_outside_claimed_conditions :
    ((Client.init "tok").get "key"
        (fun _ => .resp ⟨404, some (.obj [("ok", .bool true), ("result", .null)])⟩) 5).1
      = .error (.jsonstoreError "http error 404")
    ∧ (Json.obj [("ok", .bool true), ("result", .null)]).getItem "ok" = .ok (.bool true)
    ∧ (Json.obj [("ok", .bool true), ("result", .null)]).getItem "result" = .ok .null :=
  ⟨rfl, rfl, rfl⟩

/-- Claim C1 (amended): for every network outcome whose valid JSON body is
a JSON object, `get` fails with `JsonstoreError` exactly when the network
call fails, the HTTP status is 4xx/5xx, the body is not valid JSON, the
`ok` entry is absent or falsy, or the `result` entry is missing; otherwise
it returns the `result` entry of the deserialized envelope. -/
theorem get_characterization (c : Client) (key : String) (t : Nat) (net : NetOutcome)
    (hbody : net.dictBodied = true) :
    isStoreErr (c.get key (fun _ => net) t).1 = get_failure_cond net
    ∧ (get_failure_cond net = false →
       ∃ v, envelope_result net = some v ∧ (c.get key (fun _ => net) t).1 = .ok v) := by
  cases net with
  | exn m =>
    refine ⟨?_, ?_⟩
    · simp [Client.get, isStoreErr, isStoreErrE, normalize_error, get_failure_cond]
    · intro h; simp [get_failure_cond] at h
  | resp r =>
    by_cases hs : r.raisesForStatus = true
    · refine ⟨?_, ?_⟩
      · rw [isStoreErr_get_of_check c key t r (check_fails_of_raises r hs)]
        simp [get_failure_cond, hs]
      · intro h; simp [get_failure_cond, hs] at h
    · simp only [Bool.not_eq_true] at hs
      cases hb : r.body with
      | none =>
        refine ⟨?_, ?_⟩
        · rw [isStoreErr_get_of_check c key t r (check_fails_of_body_none r hb)]
          simp [get_failure_cond, hs, hb]
        · intro h; simp [get_failure_cond, hs, hb] at h
      | some b =>
        cases b with
        | obj fs =>
          cases hfind : fs.find? (fun p => p.1 == "ok") with
          | none =>
            have hbad : okFieldBad (.obj fs) = true := by simp [okFieldBad, hfind]
            refine ⟨?_, ?_⟩
            · rw [isStoreErr_get_of_check c key t r (check_fails_of_okbad r fs hb hbad)]
              simp [get_failure_cond, hs, hb, hbad]
            · intro h; simp [get_failure_cond, hs, hb, hbad] at h
          | some pr =>
            by_cases htr : pr.2.truthy = true
            · have hch := check_ok_of_truthy r fs hb hs pr hfind htr
              cases hres : fs.find? (fun p => p.1 == "result") with
              | none =>
                have hmiss : resultMissing (.obj fs) = true := by simp [resultMissing, hres]
                refine ⟨?_, ?_⟩
                · simp [Client.get, hch, Json.getItem, hres, isStoreErr, isStoreErrE,
                        normalize_error, get_failure_cond, hs, hb, okFieldBad, hfind, htr, hmiss]
                · intro h
                  simp [get_failure_cond, hs, hb, okFieldBad, hfind, htr, resultMissing, hres] at h
              | some q =>
                refine ⟨?_, ?_⟩
                · simp [Client.get, hch, Json.getItem, hres, isStoreErr,
                        get_failure_cond, hs, hb, okFieldBad, hfind, htr, resultMissing, hres]
                · intro _
                  exact ⟨q.2, by simp [envelope_result, hb, hres],
                         by simp [Client.get, hch, Json.getItem, hres]⟩
            · simp only [Bool.not_eq_true] at htr
              have hbad : okFieldBad (.obj fs) = true := by simp [okFieldBad, hfind, htr]
              refine ⟨?_, ?_⟩
              · rw [isStoreErr_get_of_check c key t r (check_fails_of_okbad r fs hb hbad)]
                simp [get_failure_cond, hs, hb, hbad]
              · intro h; simp [get_failure_cond, hs, hb, hbad] at h
        | null => simp [NetOutcome.dictBodied, dictBody, hb] at hbody
        | bool b => simp [NetOutcome.dictBodied, dictBody, hb] at hbody
        | num n => simp [NetOutcome.dictBodied, dictBody, hb] at hbody
        | str s => simp [NetOutcome.dictBodied, dictBody, hb] at hbody
        | arr es => simp [NetOutcome.dictBodied, dictBody, hb] at hbody

/-- Witness for the amended claim C1, at a 200 response with body
`{"ok": true, "result": 42}`. -/
theorem get_characterization_witness :
    NetOutcome.dictBodied (.resp ⟨200, some (.obj [("ok", .bool true), ("result", .num 42)])⟩) = true
    ∧ (isStoreErr ((Client.init "tok").get "k"
          (fun _ => .resp ⟨200, some (.obj [("ok", .bool true), ("result", .num 42)])⟩) 5).1
        = get_failure_cond (.resp ⟨200, some (.obj [("ok", .bool true), ("result", .num 42)])⟩)
      ∧ (get_failure_cond (.resp ⟨200, some (.obj [("ok", .bool true), ("result", .num 42)])⟩) = false →
         ∃ v, envelope_result (.resp ⟨200, some (.obj [("ok", .bool true), ("result", .num 42)])⟩)
                = some v
           ∧ ((Client.init "tok").get "k"
                (fun _ => .resp ⟨200, some (.obj [("ok", .bool true), ("result", .num 42)])⟩) 5).1
              = .ok v)) :=
  ⟨rfl, get_characterization (Client.init "tok") "k" 5 _ rfl⟩

/-- Claim C2, counterexample: `delete` does pass the timeout to the
underlying call (its single issued request carries `timeout = some 7`),
contradicting the claim that `get` and `delete` are the two methods that
drop it. -/
theorem delete_forwards_timeout_counterexample :
    ((Client.init "tok").delete "key" (fun _ => .exn "connection error") 7).2.map Request.timeout
      = [some 7] :=
  rfl

/-- Claim C2 (amended): the timeout parameter is dropped in exactly one of
the four methods, namely `get`; `post`, `put` and `delete` all pass it to
the underlying call. -/
theorem timeout_forwarding (c : Client) (k : String) (t : Nat) (j : Json) (net : NetCaller) :
    (c.get k net t).2.map Request.timeout = [none]
    ∧ (c.post k (.jsonData j) net t).2.map Request.timeout = [some t]
    ∧ (c.put k (.jsonData j) net t).2.map Request.timeout = [some t]
    ∧ (c.delete k net t).2.map Request.timeout = [some t] :=
  ⟨rfl, rfl, rfl, rfl⟩

/-- Claim C3, counterexample: a 200 response with body
`{"ok": 1, "result": null}` lacks a true `ok` entry (its `ok` entry is the
number 1, not the boolean true), yet `get` succeeds, because the source
only tests Python truthiness of `resp['ok']`. -/
theorem truthy_nontrue_ok_accepted :
    ((Client.init "tok").get "key"
        (fun _ => .resp ⟨200, some (.obj [("ok", .num 1), ("result", .null)])⟩) 5).1 = .ok .null
    ∧ (Json.obj [("ok", .num 1), ("result", .null)]).getItem "ok" = .ok (.num 1)
    ∧ Json.num 1 ≠ Json.bool true :=
  ⟨rfl, rfl, fun h => Json.noConfusion h⟩

/-- Claim C3 (amended): for every operation and every response whose JSON
body is an object whose `ok` entry is absent or falsy, the operation
raises `JsonstoreError`, regardless of the HTTP status code. -/
theorem not_ok_causes_storeerror (c : Client) (k : String) (t : Nat) (j : Json)
    (status : Nat) (fs : List (String × Json)) (h : okFieldBad (.obj fs) = true) :
    isStoreErr (c.get k (fun _ => .resp ⟨status, some (.obj fs)⟩) t).1 = true
    ∧ isStoreErr (c.post k (.jsonData j) (fun _ => .resp ⟨status, some (.obj fs)⟩) t).1 = true
    ∧ isStoreErr (c.put k (.jsonData j) (fun _ => .resp ⟨status, some (.obj fs)⟩) t).1 = true
    ∧ isStoreErr (c.delete k (fun _ => .resp ⟨status, some (.obj fs)⟩) t).1 = true :=
  have hc := check_fails_of_okbad ⟨status, some (.obj fs)⟩ fs rfl h
  ⟨isStoreErr_get_of_check c k t _ hc, isStoreErr_post_of_check c k t j _ hc,
   isStoreErr_put_of_check c k t j _ hc, isStoreErr_delete_of_check c k t _ hc⟩

/-- Witness for the amended claim C3, at a 200 response with body
`{"ok": false}`. -/
theorem not_ok_causes_storeerror_witness :
    okFieldBad (.obj [("ok", .bool false)]) = true
    ∧ (isStoreErr ((Client.init "tok").get "k"
          (fun _ => .resp ⟨200, some (.obj [("ok", .bool false)])⟩) 5).1 = true
      ∧ isStoreErr ((Client.init "tok").post "k" (.jsonData .null)
          (fun _ => .resp ⟨200, some (.obj [("ok", .bool false)])⟩) 5).1 = true
      ∧ isStoreErr ((Client.init "tok").put "k" (.jsonData .null)
          (fun _ => .resp ⟨200, some (.obj [("ok", .bool false)])⟩) 5).1 = true
      ∧ isStoreErr ((Client.init "tok").delete "k"
          (fun _ => .resp ⟨200, some (.obj [("ok", .bool false)])⟩) 5).1 = true) :=
  ⟨rfl, not_ok_causes_storeerror (Client.init "tok") "k" 5 .null 200 [("ok", .bool false)] rfl⟩

/-- Claim C4, counterexample: a response with the non-2xx status 301 and
body `{"ok": true}` does not make `delete` raise: `raise_for_status` only
raises for 4xx/5xx, so 1xx/3xx statuses pass the check. -/
theorem status_301_no_storeerror :
    ((Client.init "tok").delete "key"
        (fun _ => .resp ⟨301, some (.obj [("ok", .bool true)])⟩) 5).1 = .ok ()
    ∧ ¬(200 ≤ 301 ∧ 301 < 300) :=
  ⟨rfl, by decide⟩

/-- Claim C4 (amended): for every operation, a response with a 4xx or 5xx
HTTP status causes `JsonstoreError` (via the `HTTPError` raised by
`raise_for_status`, which the `except` clause converts). -/
theorem http_error_status_causes_storeerror (c : Client) (k : String) (t : Nat) (j : Json)
    (r : Response) (h : 400 ≤ r.status ∧ r.status < 600) :
    isStoreErr (c.get k (fun _ => .resp r) t).1 = true
    ∧ isStoreErr (c.post k (.jsonData j) (fun _ => .resp r) t).1 = true
    ∧ isStoreErr (c.put k (.jsonData j) (fun _ => .resp r) t).1 = true
    ∧ isStoreErr (c.delete k (fun _ => .resp r) t).1 = true :=
  have hs : r.raisesForStatus = true := by
    simp [Response.raisesForStatus, h.1, h.2]
  have hc := check_fails_of_raises r hs
  ⟨isStoreErr_get_of_check c k t _ hc, isStoreErr_post_of_check c k t j _ hc,
   isStoreErr_put_of_check c k t j _ hc, isStoreErr_delete_of_check c k t _ hc⟩

/-- Witness for the amended claim C4, at a 503 response. -/
theorem http_error_status_causes_storeerror_witness :
    (400 ≤ 503 ∧ 503 < 600)
    ∧ (isStoreErr ((Client.init "tok").get "k" (fun _ => .resp ⟨503, none⟩) 5).1 = true
      ∧ isStoreErr ((Client.init "tok").post "k" (.jsonData .null)
          (fun _ => .resp ⟨503, none⟩) 5).1 = true
      ∧ isStoreErr ((Client.init "tok").put "k" (.jsonData .null)
          (fun _ => .resp ⟨503, none⟩) 5).1 = true
      ∧ isStoreErr ((Client.init "tok").delete "k" (fun _ => .resp ⟨503, none⟩) 5).1 = true) :=
  ⟨by decide,
   http_error_status_causes_storeerror (Client.init "tok") "k" 5 .null ⟨503, none⟩ (by decide)⟩

/-- Claim C5: for every operation and every HTTP status, a response body
that is not valid JSON (the parse raises `ValueError`) makes the operation
raise `JsonstoreError`; since the outcome is a `JsonstoreError`, the parse
exception itself is never propagated to the caller. -/
theorem invalid_json_causes_storeerror (c : Client) (k : String) (t : Nat) (j : Json)
    (status : Nat) :
    isStoreErr (c.get k (fun _ => .resp ⟨status, none⟩) t).1 = true
    ∧ isStoreErr (c.post k (.jsonData j) (fun _ => .resp ⟨status, none⟩) t).1 = true
    ∧ isStoreErr (c.put k (.jsonData j) (fun _ => .resp ⟨status, none⟩) t).1 = true
    ∧ isStoreErr (c.delete k (fun _ => .resp ⟨status, none⟩) t).1 = true :=
  have hc := check_fails_of_body_none ⟨status, none⟩ rfl
  ⟨isStoreErr_get_of_check c k t _ hc, isStoreErr_post_of_check c k t j _ hc,
   isStoreErr_put_of_check c k t j _ hc, isStoreErr_delete_of_check c k t _ hc⟩

/-- Claim C6: `Client.init` establishes exactly the two fixed headers, and
every HTTP request issued by any of the four operations carries the
client's header set unchanged (with unserializable data, `post`/`put`
issue no request at all, so the quantification is vacuous there).  The
embedding of the client is a pure value: no operation returns a modified
client, mirroring that `__base_url` and `__headers` are only assigned in
`__init__`. -/
theorem fixed_headers (token k : String) (t : Nat) (j : Json) (s : String)
    (net : NetCaller) (c : Client) :
    (Client.init token).headers
        = [("Accept", "application/json"), ("Content-type", "application/json")]
    ∧ (c.get k net t).2.map Request.headers = [c.headers]
    ∧ (c.post k (.jsonData j) net t).2.map Request.headers = [c.headers]
    ∧ (c.post k (.unserializable s) net t).2.map Request.headers = []
    ∧ (c.put k (.jsonData j) net t).2.map Request.headers = [c.headers]
    ∧ (c.put k (.unserializable s) net t).2.map Request.headers = []
    ∧ (c.delete k net t).2.map Request.headers = [c.headers] :=
  ⟨rfl, rfl, rfl, rfl, rfl, rfl, rfl⟩

/-- Claim C7: for every token and key, the URL of the single request issued
by each operation is the string concatenation
`'https://www.jsonstore.io/' + token + '/' + key`, built by
`__create_url` from the base URL set in `__init__`. -/
theorem request_url_concatenation (token k : String) (t : Nat) (j : Json) (net : NetCaller) :
    (Client.init token).create_url k = "https://www.jsonstore.io/" ++ token ++ "/" ++ k
    ∧ ((Client.init token).get k net t).2.map Request.url
        = ["https://www.jsonstore.io/" ++ token ++ "/" ++ k]
    ∧ ((Client.init token).post k (.jsonData j) net t).2.map Request.url
        = ["https://www.jsonstore.io/" ++ token ++ "/" ++ k]
    ∧ ((Client.init token).put k (.jsonData j) net t).2.map Request.url
        = ["https://www.jsonstore.io/" ++ token ++ "/" ++ k]
    ∧ ((Client.init token).delete k net t).2.map Request.url
        = ["https://www.jsonstore.io/" ++ token ++ "/" ++ k] :=
  ⟨rfl, rfl, rfl, rfl, rfl⟩

/-- Claim C9: for every value `json.dumps` rejects, `post` and `put` raise
the `TypeError` coming from serialization (not `JsonstoreError`) and issue
no HTTP request: the serialization step runs before and outside the
`try` block. -/
theorem unserializable_raises_typeerror_no_request (c : Client) (k : String) (t : Nat)
    (reason : String) (net : NetCaller) :
    c.post k (.unserializable reason) net t
      = (.error (.typeError ("Object of type " ++ reason ++ " is not JSON serializable")), [])
    ∧ c.put k (.unserializable reason) net t
      = (.error (.typeError ("Object of type " ++ reason ++ " is not JSON serializable")), []) :=
  ⟨rfl, rfl⟩

/-- Claim C10: `DEFAULT_TIMEOUT_SECONDS` is 5, every operation's omitted
timeout argument defaults to it, and the methods that forward the timeout
then put 5 seconds on the issued request. -/
theorem default_timeout_is_five (c : Client) (k : String) (j : Json) (net : NetCaller) :
    DEFAULT_TIMEOUT_SECONDS = 5
    ∧ c.get k net = c.get k net 5
    ∧ c.post k (.jsonData j) net = c.post k (.jsonData j) net 5
    ∧ c.put k (.jsonData j) net = c.put k (.jsonData j) net 5
    ∧ c.delete k net = c.delete k net 5
    ∧ (c.post k (.jsonData j) net).2.map Request.timeout = [some 5]
    ∧ (c.put k (.jsonData j) net).2.map Request.timeout = [some 5]
    ∧ (c.delete k net).2.map Request.timeout = [some 5] :=
  ⟨rfl, rfl, rfl, rfl, rfl, rfl, rfl, rfl⟩

/-! The remote service, needed for the round-trip claim C8. -/

/-- Per-URL document store of the remote service. -/
abbrev Store := List (String × Json)

/-- Modelled from the spec: the remote jsonstore service, which is not part
of this repository's sources.  Per the wire protocol (spec section 6) it
keeps one JSON document per URL; `POST`/`PUT` store the deserialized
request body and answer `{"ok": true}`, `GET` answers
`{"ok": true, "result": <document>}` for a stored document, `DELETE`
removes it.  The service's JSON deserialization of the request body is
the parameter `deser`; the round-trip claim assumes it faithfully inverts
the client's `json.dumps`. -/
def service_step (deser : String → Option Json) (st : Store) (req : Request) :
    Store × Response :=
  match req.method with
  | .post | .put =>
    match req.data with
    | some body =>
      match deser body with
      | some doc =>
        ((req.url, doc) :: st.filter (fun p => !(p.1 == req.url)),
         ⟨200, some (.obj [("ok", .bool true)])⟩)
      | none => (st, ⟨400, some (.obj [("ok", .bool false)])⟩)
    | none => (st, ⟨400, some (.obj [("ok", .bool false)])⟩)
  | .get =>
    match st.find? (fun p => p.1 == req.url) with
    | some p => (st, ⟨200, some (.obj [("ok", .bool true), ("result", p.2)])⟩)
    | none => (st, ⟨404, some (.obj [("ok", .bool false)])⟩)
  | .delete =>
    (st.filter (fun p => !(p.1 == req.url)), ⟨200, some (.obj [("ok", .bool true)])⟩)

/-- Folding the service over the requests an operation issued. -/
def store_after (deser : String → Option Json) (st : Store) (reqs : List Request) : Store :=
  reqs.foldl (fun s r => (service_step deser s r).1) st

/-- Claim C8: against the modelled service and starting from the empty
store, `post key value` succeeds and a subsequent `get key` returns
`value`, for every JSON-serializable value, assuming the service's
deserialization faithfully inverts the client's serialization of that
value. -/
theorem post_then_get_roundtrip (token key : String) (v : Json) (t1 t2 : Nat)
    (deser : String → Option Json) (hfaithful : deser (dumpsJson v) = some v) :
    ((Client.init token).post key (.jsonData v)
        (fun req => .resp (service_step deser [] req).2) t1).1 = .ok ()
    ∧ ((Client.init token).get key
        (fun req => .resp (service_step deser
            (store_after deser [] (((Client.init token).post key (.jsonData v)
                (fun req => .resp (service_step deser [] req).2) t1).2)) req).2) t2).1 = .ok v := by
  constructor
  · simp [Client.post, json_dumps, service_step, hfaithful, check_response,
          Response.raisesForStatus, Json.containsKey, Json.getItem, Json.truthy]
  · simp [Client.get, Client.post, json_dumps, store_after, service_step, hfaithful,
          check_response, Response.raisesForStatus, Json.containsKey, Json.getItem, Json.truthy]

/-- Witness for claim C8, at value `true` and the one-point
deserialization sending `"true"` to `true`. -/
theorem post_then_get_roundtrip_witness :
    (fun s => if s == "true" then some (Json.bool true) else none) (dumpsJson (.bool true))
        = some (Json.bool true)
    ∧ (((Client.init "tok").post "k" (.jsonData (.bool true))
          (fun req => .resp (service_step
            (fun s => if s == "true" then some (Json.bool true) else none) [] req).2) 5).1 = .ok ()
      ∧ ((Client.init "tok").get "k"
          (fun req => .resp (service_step
              (fun s => if s == "true" then some (Json.bool true) else none)
              (store_after (fun s => if s == "true" then some (Json.bool true) else none) []
                (((Client.init "tok").post "k" (.jsonData (.bool true))
                    (fun req => .resp (service_step
                      (fun s => if s == "true" then some (Json.bool true) else none) [] req).2)
                  5).2)) req).2) 5).1 = .ok (.bool true)) :=
  ⟨rfl, post_then_get_roundtrip "tok" "k" (.bool true) 5 5
      (fun s => if s == "true" then some (Json.bool true) else none) rfl⟩

end Jsonstore
